import Mathlib

set_option maxRecDepth 40000

/-
Verification development for the resilient data-fetch and normalization
layer of a two-source movie-browsing application.

The embedding models:
  * the JavaScript primitives the code relies on (string-to-number
    coercion, the 32-bit string hash, string trimming, decimal printing
    of numbers) — JavaScript numbers are idealized as exact rationals,
    which is faithful on the integer identifiers and small decimals the
    code manipulates (a comment marks each spot where the float
    idealization matters);
  * the schema-mapper utilities (`getMovieRouteId`, `toNumericId`,
    `mapCategoriesToGenres`, `mapSupabaseMovieToTmdb`,
    `mapSupabaseMovieToTmdbDetails`);
  * the secondary-store client wrapper `safeQuery` and the query
    functions built on it, with the outcome of the underlying network
    query supplied explicitly (resolved data / error object / thrown
    exception), and a boolean tracking whether the wrapped query
    function was invoked;
  * the primary client wrapper `apiSafeFetch` with the network outcome
    supplied as an `Except`;
  * the stateful hooks (`useHomeData.fetchHomeData`,
    `useSupabaseMovieDetails.fetchDetails`, `useSearchMovies.search`)
    as explicit state-transition functions; the search debounce is
    modelled as a timed event semantics that records which network
    fetches are emitted.
-/

/-! ## JavaScript primitive model -/

/-- JavaScript `StrWhiteSpace` characters recognised by implicit string
trimming (the common ones: space, tab, LF, CR, VT, FF, NBSP, line and
paragraph separators, BOM). -/
def jsWs (c : Char) : Bool :=
  c == ' ' || c == '\t' || c == '\n' || c == '\r' ||
  c.toNat == 11 || c.toNat == 12 || c.toNat == 0xa0 ||
  c.toNat == 0x2028 || c.toNat == 0x2029 || c.toNat == 0xfeff

/-- Trim JavaScript whitespace from both ends of a character list. -/
def jsTrimChars (cs : List Char) : List Char :=
  ((cs.dropWhile jsWs).reverse.dropWhile jsWs).reverse

/-- `s.trim()` yields an empty (falsy) string. -/
def jsBlank (s : String) : Bool :=
  (jsTrimChars s.data).isEmpty

/-- Decimal digit predicate. -/
def isDigitB (c : Char) : Bool :=
  48 ≤ c.toNat && c.toNat ≤ 57

/-- Numeric value of a decimal digit character. -/
def digitVal (c : Char) : Nat := c.toNat - 48

/-- Hexadecimal digit value, used by the `0x`/`0o`/`0b` literal forms of
`Number(...)`. -/
def hexVal (c : Char) : Option Nat :=
  if isDigitB c then some (digitVal c)
  else if 97 ≤ c.toNat && c.toNat ≤ 102 then some (c.toNat - 87)
  else if 65 ≤ c.toNat && c.toNat ≤ 70 then some (c.toNat - 55)
  else none

/-- Accumulate a digit list (most significant first) into a number. -/
def ofDigits (ds : List Nat) : Nat :=
  ds.foldl (fun a d => 10 * a + d) 0

/-- Smallest magnitude at which an IEEE-754 double overflows to
infinity; `Number(...)` results at or beyond it fail the
`Number.isFinite` test.  (The exact rounding boundary a hair below
`2 ^ 1024` is abstracted to `2 ^ 1024`.) -/
def jsFloatLimit : ℚ := ((2 ^ 1024 : ℕ) : ℚ)

/-- Guard a parsed value with the `Number.isFinite` overflow check. -/
def finiteGuard (q : ℚ) : Option ℚ :=
  if -jsFloatLimit < q ∧ q < jsFloatLimit then some q else none

/-- The rational `sgn * m * 10 ^ e` of a signed decimal literal with
mantissa `m` and decimal exponent `e` (the arithmetic stays in ℤ/ℕ
with a single final `mkRat`). -/
def qOfParts (sgn : Int) (m : Nat) (e : Int) : ℚ :=
  if 0 ≤ e then mkRat (sgn * m * (10 ^ e.toNat : ℕ)) 1
  else mkRat (sgn * m) (10 ^ (-e).toNat)

/-- Parse the optional exponent suffix of a decimal literal; `some e`
only when the whole remaining input is consumed. -/
def parseExp : List Char → Option Int
  | [] => some 0
  | c :: r =>
    if c = 'e' ∨ c = 'E' then
      let sr : Int × List Char :=
        match r with
        | '+' :: rr => (1, rr)
        | '-' :: rr => (-1, rr)
        | _ => (1, r)
      let es := sr.2.takeWhile isDigitB
      let r3 := sr.2.dropWhile isDigitB
      if es.isEmpty ∨ r3 ≠ [] then none
      else some (sr.1 * (ofDigits (es.map digitVal) : Int))
    else none

/-- Parse an unsigned decimal literal (`digits`, `digits.digits`,
`.digits`, optional exponent) into mantissa and decimal exponent;
`none` on anything else. -/
def parseDec (cs : List Char) : Option (Nat × Int) :=
  let ds := cs.takeWhile isDigitB
  let r1 := cs.dropWhile isDigitB
  match r1 with
  | '.' :: r2 =>
    let fs := r2.takeWhile isDigitB
    let r3 := r2.dropWhile isDigitB
    if ds.isEmpty && fs.isEmpty then none
    else (parseExp r3).map fun e =>
      (ofDigits ((ds ++ fs).map digitVal), e - fs.length)
  | _ =>
    if ds.isEmpty then none
    else (parseExp r1).map fun e => (ofDigits (ds.map digitVal), e)

/-- Recognise an (unsigned) radix prefix `0x` / `0b` / `0o`. -/
def jsRadix (cs : List Char) : Option (Nat × List Char) :=
  match cs with
  | c0 :: c1 :: rest =>
    if c0 = '0' then
      if c1 = 'x' ∨ c1 = 'X' then some (16, rest)
      else if c1 = 'b' ∨ c1 = 'B' then some (2, rest)
      else if c1 = 'o' ∨ c1 = 'O' then some (8, rest)
      else none
    else none
  | _ => none

/-- Parse the digits of a radix literal. -/
def parseRadixDigits (b : Nat) (cs : List Char) : Option ℚ :=
  if cs.isEmpty then none
  else if cs.all (fun c => ((hexVal c).getD 16) < b) then
    finiteGuard (((cs.foldl (fun a c => b * a + (hexVal c).getD 16) 0 : Nat)) : ℚ)
  else none

/-- `Number(string)` after trimming: empty string is `0`; radix
literals; otherwise an optionally signed decimal literal or
`Infinity`; `none` stands for `NaN` or an infinite result (both fail
`Number.isFinite`).  Values are idealized as exact rationals. -/
def jsNumberOfChars (cs : List Char) : Option ℚ :=
  match jsRadix cs with
  | some (b, rest) => parseRadixDigits b rest
  | none =>
    match cs with
    | [] => some 0
    | c :: r =>
      let sr : Int × List Char :=
        if c = '+' then (1, r) else if c = '-' then (-1, r) else (1, c :: r)
      if sr.2 = "Infinity".data then none
      else (parseDec sr.2).bind fun me => finiteGuard (qOfParts sr.1 me.1 me.2)

/-- The JavaScript `Number(string)` coercion, returning `some` exactly
when the result passes `Number.isFinite`. -/
def jsNumber (s : String) : Option ℚ :=
  jsNumberOfChars (jsTrimChars s.data)

/-! ### UTF-16 code units and the 32-bit string hash -/

/-- UTF-16 code units of one character (`charCodeAt` enumerates these). -/
def charUnits (c : Char) : List Nat :=
  let n := c.toNat
  if n < 0x10000 then [n]
  else [0xd800 + (n - 0x10000) / 0x400, 0xdc00 + (n - 0x10000) % 0x400]

/-- UTF-16 code units of a string. -/
def utf16Units (s : String) : List Nat :=
  s.data.flatMap charUnits

/-- Wrap an integer to the signed 32-bit range (the effect of `| 0` and
of the 32-bit shift). -/
def wrap32 (n : Int) : Int :=
  (n + 2 ^ 31) % 2 ^ 32 - 2 ^ 31

/-- One step of the hash loop: `hash = (hash << 5) - hash + code; hash |= 0`.
The shift is itself a 32-bit operation; the subtraction and addition are
exact (double-precision suffices at these magnitudes) before `| 0`
wraps the result. -/
def hashStep (h : Int) (code : Nat) : Int :=
  wrap32 (wrap32 (32 * h) - h + code)

/-- The string hash used for opaque identifiers (before `Math.abs`). -/
def jsStringHash (s : String) : Int :=
  (utf16Units s).foldl hashStep 0

/-! ### Decimal printing of numbers (`String(n)`, template literals)

JavaScript prints a number in plain decimal notation whenever its
magnitude is below `10 ^ 21` (above that it switches to exponent
notation, and above `2 ^ 53` doubles cannot hold exact integers
anyway); the model below is faithful on that decimal-notation range. -/

/-- Decimal digit character. -/
def digitChar : Nat → Char
  | 0 => '0' | 1 => '1' | 2 => '2' | 3 => '3' | 4 => '4'
  | 5 => '5' | 6 => '6' | 7 => '7' | 8 => '8' | _ => '9'

/-- Digits of a natural number, most significant first (fuel-driven so
that it reduces definitionally; `natDigits` supplies enough fuel). -/
def natDigitsF : Nat → Nat → List Nat
  | 0, _ => []
  | fuel + 1, n => if n < 10 then [n] else natDigitsF fuel (n / 10) ++ [n % 10]

/-- Digits of a natural number in decimal, most significant first. -/
def natDigits (n : Nat) : List Nat := natDigitsF (n + 1) n

/-- Decimal string of a natural number. -/
def natRepr (n : Nat) : String :=
  String.mk ((natDigits n).map digitChar)

/-- `String(i)` for an integer value. -/
def intRepr (i : Int) : String :=
  if i < 0 then String.mk ('-' :: (natDigits i.natAbs).map digitChar)
  else natRepr i.toNat

/-- Fraction digits of `n / d` for `n < d` (fuel-capped long division). -/
def fracDigitsF : Nat → Nat → Nat → List Nat
  | 0, _, _ => []
  | fuel + 1, n, d =>
    if n = 0 then []
    else (10 * n / d) :: fracDigitsF fuel (10 * n % d) d

/-- `String(q)` for a JavaScript number idealized as a rational:
plain decimal notation (exact for integers and terminating decimals,
the only values the code prints). -/
def jsNumToString (q : ℚ) : String :=
  if q.den = 1 then intRepr q.num
  else
    let sgn := if q.num < 0 then "-" else ""
    let na := q.num.natAbs
    sgn ++ natRepr (na / q.den) ++ "." ++
      String.mk ((fracDigitsF 25 (na % q.den) q.den).map digitChar)

/-! ### String search/replace helpers (`startsWith`, `replace`) -/

/-- `startsWithChars pat cs`: `cs` begins with `pat`. -/
def startsWithChars : List Char → List Char → Bool
  | [], _ => true
  | _ :: _, [] => false
  | p :: ps, c :: cs => p == c && startsWithChars ps cs

/-- `String.prototype.replace` with a plain-string pattern: replace the
first occurrence of `pat` with the empty string (the only use in the
code is stripping a prefix). -/
def replaceFirstChars (pat : List Char) : List Char → List Char
  | [] => []
  | c :: rest =>
    if startsWithChars pat (c :: rest) then (c :: rest).drop pat.length
    else c :: replaceFirstChars pat rest

/-- JavaScript `a || b` on nullable object values (objects are truthy,
`undefined`/`null` falsy). -/
def jsOr {α : Type} (a b : Option α) : Option α :=
  match a with
  | some x => some x
  | none => b

/-! ## Primary-source (TMDB) data shapes and client

The client wraps every endpoint in `apiSafeFetch`; the outcome of the
underlying network request is supplied as an `Except`, and the static
fallback payload (the `mockData` module, which only the client file
references) is supplied as a parameter. -/

namespace Tmdb

structure Genre where
  id : ℚ
  name : String
deriving DecidableEq

structure ProductionCompany where
  id : ℚ
  logo_path : Option String
  name : String
  origin_country : String
deriving DecidableEq

structure ProductionCountry where
  iso_3166_1 : String
  name : String
deriving DecidableEq

structure SpokenLanguage where
  english_name : String
  iso_639_1 : String
  name : String
deriving DecidableEq

/-- The primary-source movie shape (`Movie` in the API module), plus
the optional origin tag added by the schema mapper (`MovieWithSource`). -/
structure Movie where
  id : ℚ
  title : String
  original_title : String
  overview : String
  poster_path : Option String
  backdrop_path : Option String
  release_date : String
  vote_average : ℚ
  vote_count : Int
  popularity : ℚ
  adult : Bool
  genre_ids : List ℚ
  original_language : String
  video : Bool
  name : Option String := none
  source : Option String := none
  sourceId : Option String := none
deriving DecidableEq

structure MovieDetails extends Movie where
  budget : Int
  genres : List Genre
  homepage : Option String
  imdb_id : Option String
  production_companies : List ProductionCompany
  production_countries : List ProductionCountry
  revenue : Int
  runtime : Option Int
  spoken_languages : List SpokenLanguage
  status : String
  tagline : Option String
deriving DecidableEq

structure PaginatedResponse where
  page : Int
  results : List Movie
  total_pages : Int
  total_results : Int
deriving DecidableEq

/-- `apiSafeFetch`: run the fetcher; on any failure log and resolve with
the static fallback payload.  It never rejects. -/
def apiSafeFetch {α : Type} (fetcher : Except String α) (fallback : α)
    (label : String) : α :=
  match fetcher with
  | .ok v => v
  | .error _ => fallback

/-- The empty page `searchMovies` returns for a blank query without
issuing a request. -/
def emptySearchPage : PaginatedResponse :=
  { page := 1, results := [], total_pages := 1, total_results := 0 }

/-- `searchMovies`: blank queries resolve immediately to an empty page;
otherwise the request outcome is run through `apiSafeFetch`.  The
boolean records whether a network fetch was attempted. -/
def searchMovies (query : String) (net : Except String PaginatedResponse)
    (fallback : PaginatedResponse) : PaginatedResponse × Bool :=
  if jsBlank query then (emptySearchPage, false)
  else (apiSafeFetch net fallback ("Search-" ++ query), true)

end Tmdb

/-! ## Secondary-source (Supabase) data shapes -/

namespace Db

/-- Row shape of the `movies` table (`Movie` in the database types);
`rating`, `release_year` and `duration` are nullable columns. -/
structure Movie where
  id : String
  title : String
  description : Option String
  poster_url : Option String
  backdrop_url : Option String
  release_year : Option Int
  rating : Option ℚ
  duration : Option Int
  is_trending : Bool
  is_popular : Bool
  is_new_release : Bool
  created_at : String
deriving DecidableEq

structure Category where
  id : String
  name : String
  slug : String
  display_order : Int
  created_at : String
deriving DecidableEq

structure MovieWithCategories extends Movie where
  categories : List Category
deriving DecidableEq

/-- Aggregated home-screen payload assembled by the secondary client. -/
structure HomeScreenData where
  trending : List Movie
  popular : List Movie
  newReleases : List Movie
  topRated : List Movie
  heroMovie : Option Movie
deriving DecidableEq

end Db

/-! ## Schema mapper (`utils/movie.ts`) -/

/-- JavaScript truthiness of an optional string (`undefined`, `null`
and the empty string are falsy). -/
def jsTruthyStr : Option String → Bool
  | some s => !s.isEmpty
  | none => false

/-- `getMovieRouteId`: secondary-origin movies route as `db_` followed
by their store-native id; every other movie routes as `String(movie.id)`. -/
def getMovieRouteId (movie : Tmdb.Movie) : String :=
  if movie.source = some "supabase" ∧ jsTruthyStr movie.sourceId then
    "db_" ++ movie.sourceId.getD ""
  else jsNumToString movie.id

/-- `toNumericId`: a string that coerces to a finite number is used
as-is; anything else gets the 32-bit character hash, made non-negative
with `Math.abs`. -/
def toNumericId (value : String) : ℚ :=
  match jsNumber value with
  | some parsed => parsed
  | none => ((jsStringHash value).natAbs : ℚ)

/-- `mapCategoriesToGenres` (the `categories` parameter is optional). -/
def mapCategoriesToGenres (categories : Option (List Db.Category)) : List Tmdb.Genre :=
  (categories.getD []).map fun category =>
    { id := toNumericId category.id, name := category.name }

/-- `mapSupabaseMovieToTmdb`: translate a secondary-store row into the
primary shape.  `release_year` is used under JavaScript truthiness, so
a year of `0` (like a missing year) produces an empty `release_date`. -/
def mapSupabaseMovieToTmdb (movie : Db.Movie) : Tmdb.Movie :=
  { id := toNumericId movie.id
    title := movie.title
    original_title := movie.title
    overview := movie.description.getD ""
    poster_path := movie.poster_url
    backdrop_path := movie.backdrop_url
    release_date :=
      match movie.release_year with
      | some y => if y ≠ 0 then jsNumToString (y : ℚ) ++ "-01-01" else ""
      | none => ""
    vote_average := movie.rating.getD 0
    vote_count := 0
    popularity := movie.rating.getD 0
    adult := false
    genre_ids := []
    original_language := "en"
    video := false
    source := some "supabase"
    sourceId := some movie.id }

def mapSupabaseMoviesToTmdb (movies : List Db.Movie) : List Tmdb.Movie :=
  movies.map mapSupabaseMovieToTmdb

/-- `mapSupabaseMovieToTmdbDetails`: the mapped movie enriched with the
details-only fields, all defaulted except `runtime` (the row's
`duration`) and the genres derived from the categories. -/
def mapSupabaseMovieToTmdbDetails (movie : Db.Movie)
    (categories : Option (List Db.Category)) : Tmdb.MovieDetails :=
  { toMovie := mapSupabaseMovieToTmdb movie
    budget := 0
    genres := mapCategoriesToGenres categories
    homepage := none
    imdb_id := none
    production_companies := []
    production_countries := []
    revenue := 0
    runtime := movie.duration
    spoken_languages := []
    status := "Released"
    tagline := none }

/-! ## Secondary client (`supabaseApi.ts`) -/

namespace SupabaseApi

/-- Outcome of one underlying store query: the promise either rejects
(`throws`) or resolves to a `{ data, error }` pair. -/
inductive QueryOutcome (α : Type) where
  | throws (msg : String)
  | result (data : Option α) (error : Option String)
deriving DecidableEq

/-- `safeQuery`: when the store is not configured, resolve to the
fallback without invoking the query function; when the query rejects or
reports an error object, resolve to the fallback; otherwise resolve to
the data (or the fallback if the data is null).  The boolean records
whether the query function was invoked. -/
def safeQueryRun {α : Type} (configured : Bool) (outcome : QueryOutcome α)
    (fallback : α) (label : String) : α × Bool :=
  if configured = false then (fallback, false)
  else
    match outcome with
    | .throws _ => (fallback, true)
    | .result d e =>
      match e with
      | some _ => (fallback, true)
      | none => (d.getD fallback, true)

/-- The resolved value of `safeQuery`. -/
def safeQuery {α : Type} (configured : Bool) (outcome : QueryOutcome α)
    (fallback : α) (label : String) : α :=
  (safeQueryRun configured outcome fallback label).1

/-- Store-side outcomes of the four home-screen list queries. -/
structure HomeWorld where
  configured : Bool
  trendingQ : QueryOutcome (List Db.Movie)
  popularQ : QueryOutcome (List Db.Movie)
  newReleasesQ : QueryOutcome (List Db.Movie)
  topRatedQ : QueryOutcome (List Db.Movie)
deriving DecidableEq

def getTrendingMovies (w : HomeWorld) : List Db.Movie :=
  safeQuery w.configured w.trendingQ [] "Trending"

def getPopularMovies (w : HomeWorld) : List Db.Movie :=
  safeQuery w.configured w.popularQ [] "Popular"

def getNewReleases (w : HomeWorld) : List Db.Movie :=
  safeQuery w.configured w.newReleasesQ [] "New Releases"

def getTopRatedMovies (w : HomeWorld) : List Db.Movie :=
  safeQuery w.configured w.topRatedQ [] "Top Rated"

/-- `getHomeScreenData`: the four list queries joined, with
`heroMovie = trending[0] || popular[0] || null`. -/
def getHomeScreenData (w : HomeWorld) : Db.HomeScreenData :=
  let trending := getTrendingMovies w
  let popular := getPopularMovies w
  let newReleases := getNewReleases w
  let topRated := getTopRatedMovies w
  { trending := trending, popular := popular, newReleases := newReleases,
    topRated := topRated, heroMovie := jsOr trending.head? popular.head? }

/-- `getMovieById`: a single-row query with fallback `null`. -/
def getMovieById (configured : Bool) (outcome : QueryOutcome (Option Db.Movie))
    (id : String) : Option Db.Movie :=
  safeQuery configured outcome none ("Movie-" ++ id)

/-- `searchMovies`: blank queries resolve to `[]` before the store is
consulted; the boolean records whether the store query ran. -/
def searchMovies (query : String) (configured : Bool)
    (outcome : QueryOutcome (List Db.Movie)) : List Db.Movie × Bool :=
  if jsBlank query then ([], false)
  else safeQueryRun configured outcome [] ("Search-" ++ query)

end SupabaseApi

/-! ## Query hooks (`useMovies.ts`, `useSupabaseMovies.ts`)

Each hook is modelled as a state-transition function over its own state
record, with the outcomes of the client calls supplied explicitly.  The
mounted flag is taken to be true (the hook is live); unmounting only
suppresses the final state commit. -/

namespace Hooks

/-- The home-screen aggregate shape assembled by `useHomeData`. -/
structure HomeScreenData where
  trending : List Tmdb.Movie
  popular : List Tmdb.Movie
  topRated : List Tmdb.Movie
  upcoming : List Tmdb.Movie
  heroMovie : Option Tmdb.Movie
deriving DecidableEq

/-- `mapSupabaseHomeToTmdb`: the secondary aggregate mapped list-wise
into the primary shape (`newReleases` feeds `upcoming`), with
`heroMovie = trending[0] || popular[0] || upcoming[0] || null`. -/
def mapSupabaseHomeToTmdb (data : Db.HomeScreenData) : HomeScreenData :=
  let trending := mapSupabaseMoviesToTmdb data.trending
  let popular := mapSupabaseMoviesToTmdb data.popular
  let topRated := mapSupabaseMoviesToTmdb data.topRated
  let upcoming := mapSupabaseMoviesToTmdb data.newReleases
  { trending := trending, popular := popular, topRated := topRated,
    upcoming := upcoming,
    heroMovie := jsOr (jsOr trending.head? popular.head?) upcoming.head? }

/-- State owned by `useHomeData`. -/
structure HomeState where
  data : HomeScreenData
  loading : Bool
  error : Option String
deriving DecidableEq

/-- One run of `useHomeData.fetchHomeData`, generic in the outcome of
the primary `Promise.all` batch and of the secondary aggregate call: on
primary success the four pages are committed with
`heroMovie = trending.results[0] || null`; on primary rejection the
secondary aggregate is mapped and committed; if that also rejects, only
the error string is set — the previously held data is not touched.
`loading` resolves to false on every path. -/
def fetchHomeData
    (primary : Except String
      (Tmdb.PaginatedResponse × Tmdb.PaginatedResponse ×
        Tmdb.PaginatedResponse × Tmdb.PaginatedResponse))
    (secondary : Except String Db.HomeScreenData)
    (prev : HomeState) : HomeState :=
  match primary with
  | .ok (trendingRes, popularRes, topRatedRes, upcomingRes) =>
    { data :=
        { trending := trendingRes.results
          popular := popularRes.results
          topRated := topRatedRes.results
          upcoming := upcomingRes.results
          heroMovie := trendingRes.results.head? }
      loading := false
      error := none }
  | .error _ =>
    match secondary with
    | .ok supabaseData =>
      { data := mapSupabaseHomeToTmdb supabaseData, loading := false, error := none }
    | .error _ =>
      { data := prev.data, loading := false, error := some "Failed to load home data" }

/-- Network outcomes and static fallback payloads for the four primary
home-screen endpoints (the fallback payloads live in the client's
`mockData` module, which only the client references; they are supplied
as parameters). -/
structure TmdbWorld where
  trendingNet : Except String Tmdb.PaginatedResponse
  popularNet : Except String Tmdb.PaginatedResponse
  topRatedNet : Except String Tmdb.PaginatedResponse
  upcomingNet : Except String Tmdb.PaginatedResponse
  trendingFB : Tmdb.PaginatedResponse
  popularFB : Tmdb.PaginatedResponse
  topRatedFB : Tmdb.PaginatedResponse
  upcomingFB : Tmdb.PaginatedResponse

/-- `useHomeData.fetchHomeData` composed with the real primary client:
each of the four endpoint calls goes through `apiSafeFetch`, which never
rejects, so the `Promise.all` batch always resolves with the four
(possibly fallback-substituted) pages. -/
def fetchHomeDataComposed (w : TmdbWorld)
    (secondary : Except String Db.HomeScreenData) (prev : HomeState) : HomeState :=
  fetchHomeData
    (.ok (Tmdb.apiSafeFetch w.trendingNet w.trendingFB "Trending",
          Tmdb.apiSafeFetch w.popularNet w.popularFB "Popular",
          Tmdb.apiSafeFetch w.topRatedNet w.topRatedFB "Top Rated",
          Tmdb.apiSafeFetch w.upcomingNet w.upcomingFB "Upcoming"))
    secondary prev

/-- State owned by `useSupabaseMovieDetails`. -/
structure DetailsState where
  movie : Option Db.MovieWithCategories
  similar : List Db.Movie
  loading : Bool
  error : Option String
deriving DecidableEq

/-- Store-side outcome of the `getMovieById` query, together with the
results of the two companion calls (`getMovieCategories` and
`getSimilarMovies` are chains of `safeQuery` calls and always resolve
to a list; their resolved values are supplied directly). -/
structure DetailsWorld where
  configured : Bool
  movieByIdQ : SupabaseApi.QueryOutcome (Option Db.Movie)
  categories : List Db.Category
  similar : List Db.Movie
deriving DecidableEq

/-- One run of `useSupabaseMovieDetails.fetchDetails`.  All three
client calls are `safeQuery`-wrapped and never reject, so the
`Promise.all` always resolves and the hook's catch branch (error
`"Failed to load movie details"`) is unreachable; a null movie — from a
missing row, a store error, a thrown exception, or a missing
configuration alike — produces the `"Movie not found"` error state. -/
def fetchDetails (movieId : Option String) (w : DetailsWorld)
    (prev : DetailsState) : DetailsState :=
  match movieId with
  | none => { prev with loading := false }
  | some mid =>
    let movieData := SupabaseApi.getMovieById w.configured w.movieByIdQ mid
    match movieData with
    | some m =>
      { movie := some { toMovie := m, categories := w.categories }
        similar := w.similar
        loading := false
        error := none }
    | none =>
      { movie := none, similar := [], loading := false,
        error := some "Movie not found" }

/-- State owned by `useSearchMovies` (and, shape-wise, by
`useSupabaseSearchMovies`); the pending debounce timer is modelled as
its absolute deadline plus the query text it will fetch. -/
structure SearchState where
  data : List Tmdb.Movie
  suggestions : List Tmdb.Movie
  loading : Bool
  error : Option String
  page : Int
  hasMore : Bool
  query : String
  pendingTimer : Option (Nat × String)
deriving DecidableEq

def initialSearchState : SearchState :=
  { data := [], suggestions := [], loading := false, error := none,
    page := 1, hasMore := false, query := "", pendingTimer := none }

/-- One call of `search(searchQuery)` at time `now`: the pending timer
(if any) is cleared and the query committed; a blank query clears data
and suggestions immediately and schedules nothing; otherwise a fetch for
this text is scheduled `debounceMs` in the future. -/
def searchCall (debounceMs now : Nat) (st : SearchState)
    (searchQuery : String) : SearchState :=
  let st1 := { st with pendingTimer := none, query := searchQuery }
  if jsBlank searchQuery then { st1 with data := [], suggestions := [] }
  else { st1 with pendingTimer := some (now + debounceMs, searchQuery) }

/-- Fire the pending debounce timer if its deadline has been reached by
time `t`: the timer callback starts the network fetch (recorded in the
emitted list) and sets the loading flag. -/
def fireIfDue (t : Nat) (st : SearchState) : SearchState × List String :=
  match st.pendingTimer with
  | some (dl, tq) =>
    if dl ≤ t then ({ st with pendingTimer := none, loading := true }, [tq])
    else (st, [])
  | none => (st, [])

/-- Timed semantics of a search session: process the input events in
time order (firing the pending timer first whenever its deadline has
passed), then let the final pending timer (if any) fire.  The returned
list collects, in order, the query texts for which a network fetch was
actually started. -/
def runSearch (debounceMs : Nat) : SearchState → List (Nat × String) → SearchState × List String
  | st, [] =>
    match st.pendingTimer with
    | some (_, q) => ({ st with pendingTimer := none, loading := true }, [q])
    | none => (st, [])
  | st, (t, q) :: rest =>
    let fired := fireIfDue t st
    let st2 := searchCall debounceMs t fired.1 q
    let next := runSearch debounceMs st2 rest
    (next.1, fired.2 ++ next.2)

/-- Consecutive events are in time order and strictly closer together
than `d`. -/
def gapsOk (d : Nat) : List (Nat × String) → Bool
  | [] => true
  | [_] => true
  | (t1, q1) :: (t2, q2) :: rest =>
    (t1 ≤ t2 && t2 < t1 + d) && gapsOk d ((t2, q2) :: rest)

/-- Query text of the last input event. -/
def lastQ : List (Nat × String) → String
  | [] => ""
  | [(_, q)] => q
  | _ :: rest => lastQ rest

end Hooks

/-! ## Details screen route parsing (`app/movie/[id].tsx`) -/

/-- The route id decoding done by `MovieDetailsScreen`: ids beginning
with `db_` address the secondary store (the prefix is stripped via
`String.replace`, first occurrence); any other non-empty id is coerced
with `Number(...)` and kept only if finite.  Returns the pair
`(dbMovieId, movieIdNumber)`. -/
def screenParse (movieId : String) : Option String × Option ℚ :=
  if startsWithChars "db_".data movieId.data then
    (some (String.mk (replaceFirstChars "db_".data movieId.data)), none)
  else if !movieId.isEmpty then (none, jsNumber movieId)
  else (none, none)

/-! ## Claim-level predicates and concrete scenario values -/

/-- A rejected promise outcome. -/
def exceptFailed {ε α : Type} : Except ε α → Bool
  | .error _ => true
  | .ok _ => false

/-- At least one of the four primary home-screen requests failed. -/
def primaryAnyFailure (w : Hooks.TmdbWorld) : Prop :=
  exceptFailed w.trendingNet = true ∨ exceptFailed w.popularNet = true ∨
    exceptFailed w.topRatedNet = true ∨ exceptFailed w.upcomingNet = true

/-- The four static fallback lists of the primary client. -/
def staticFallbackLists (w : Hooks.TmdbWorld) : List (List Tmdb.Movie) :=
  [w.trendingFB.results, w.popularFB.results, w.topRatedFB.results,
    w.upcomingFB.results]

/-- The four secondary-store lists mapped into the primary shape (empty
when the secondary aggregate itself failed). -/
def secondaryLists : Except String Db.HomeScreenData → List (List Tmdb.Movie)
  | .ok sd =>
    [mapSupabaseMoviesToTmdb sd.trending, mapSupabaseMoviesToTmdb sd.popular,
      mapSupabaseMoviesToTmdb sd.topRated, mapSupabaseMoviesToTmdb sd.newReleases]
  | .error _ => []

/-- The four lists held in a home aggregate state. -/
def aggregateLists (st : Hooks.HomeState) : List (List Tmdb.Movie) :=
  [st.data.trending, st.data.popular, st.data.topRated, st.data.upcoming]

/-- The claim that whenever any primary home request fails, every list
of the resulting aggregate comes from the secondary path or from a
static fallback (never from the primary source). -/
def c1Claim : Prop :=
  ∀ (w : Hooks.TmdbWorld) (secondary : Except String Db.HomeScreenData)
    (prev : Hooks.HomeState),
    primaryAnyFailure w →
    ∀ l ∈ aggregateLists (Hooks.fetchHomeDataComposed w secondary prev),
      l ∈ staticFallbackLists w ∨ l ∈ secondaryLists secondary

/-- Read back, from a primary-shape record, the release year encoded in
`release_date` — mirroring the details screen, which displays
`release_date.split('-')[0]` when the date is truthy — as a number. -/
def readReleaseYear (movie : Tmdb.Movie) : Option ℚ :=
  if movie.release_date.isEmpty then none
  else jsNumber (String.mk (movie.release_date.data.takeWhile (fun c => c ≠ '-')))

/-- The round-trip claim: mapping any secondary-shape record with a
rating and a release year into the primary shape and reading back
title, rating and release year reproduces the original values. -/
def c3Claim : Prop :=
  ∀ (m : Db.Movie) (r : ℚ) (y : Int), m.rating = some r → m.release_year = some y →
    (mapSupabaseMovieToTmdb m).title = m.title ∧
    (mapSupabaseMovieToTmdb m).vote_average = r ∧
    readReleaseYear (mapSupabaseMovieToTmdb m) = some (y : ℚ)

/-- The claim that a transport failure inside the secondary client
surfaces as an error distinct from the not-found error. -/
def c7TransportDistinct : Prop :=
  ∀ (w : Hooks.DetailsWorld) (mid : String) (prev : Hooks.DetailsState)
    (msg : String),
    w.configured = true → w.movieByIdQ = SupabaseApi.QueryOutcome.throws msg →
    (Hooks.fetchDetails (some mid) w prev).error ≠ some "Movie not found"

/-- The claim that the secondary-built home aggregate equals the four
mapped store lists with `heroMovie` the first trending item, or the
first popular item when trending is empty. -/
def c8Claim : Prop :=
  ∀ (w : SupabaseApi.HomeWorld),
    Hooks.mapSupabaseHomeToTmdb (SupabaseApi.getHomeScreenData w) =
      { trending := mapSupabaseMoviesToTmdb (SupabaseApi.getHomeScreenData w).trending
        popular := mapSupabaseMoviesToTmdb (SupabaseApi.getHomeScreenData w).popular
        topRated := mapSupabaseMoviesToTmdb (SupabaseApi.getHomeScreenData w).topRated
        upcoming := mapSupabaseMoviesToTmdb (SupabaseApi.getHomeScreenData w).newReleases
        heroMovie :=
          if (SupabaseApi.getHomeScreenData w).trending.isEmpty then
            (mapSupabaseMoviesToTmdb (SupabaseApi.getHomeScreenData w).popular).head?
          else
            (mapSupabaseMoviesToTmdb (SupabaseApi.getHomeScreenData w).trending).head? }

/-- A concrete primary-shape movie (as a successful network payload). -/
def sampleTmdbMovie : Tmdb.Movie :=
  { id := 7, title := "Net Hit", original_title := "Net Hit", overview := "",
    poster_path := none, backdrop_path := none, release_date := "2020-01-01",
    vote_average := 8, vote_count := 10, popularity := 8, adult := false,
    genre_ids := [], original_language := "en", video := false }

/-- An empty page payload. -/
def samplePage : Tmdb.PaginatedResponse :=
  { page := 1, results := [], total_pages := 1, total_results := 0 }

/-- A world in which the trending request fails with an HTTP error while
the popular request succeeds with a real payload. -/
def mixedFailureWorld : Hooks.TmdbWorld :=
  { trendingNet := .error "Request failed with status code 500"
    popularNet := .ok { page := 1, results := [sampleTmdbMovie],
                        total_pages := 1, total_results := 1 }
    topRatedNet := .ok samplePage
    upcomingNet := .ok samplePage
    trendingFB := samplePage
    popularFB := samplePage
    topRatedFB := samplePage
    upcomingFB := samplePage }

/-- The initial state of `useHomeData`. -/
def initialHomeState : Hooks.HomeState :=
  { data := { trending := [], popular := [], topRated := [], upcoming := [],
              heroMovie := none },
    loading := true, error := none }

/-- A secondary-shape record whose release year is the (falsy) number 0. -/
def yearZeroMovie : Db.Movie :=
  { id := "m-0", title := "Year Zero", description := none, poster_url := none,
    backdrop_url := none, release_year := some 0, rating := some 5,
    duration := none, is_trending := false, is_popular := false,
    is_new_release := false, created_at := "" }

/-- A world in which the `getMovieById` query throws (network failure). -/
def transportFailWorld : Hooks.DetailsWorld :=
  { configured := true
    movieByIdQ := .throws "Network request failed"
    categories := []
    similar := [] }

/-- A world in which the single-row query reports the no-rows error of
`.single()` (the id exists in neither source). -/
def notFoundWorld : Hooks.DetailsWorld :=
  { configured := true
    movieByIdQ := .result none (some "JSON object requested, multiple (or no) rows returned")
    categories := []
    similar := [] }

/-- The initial state of `useSupabaseMovieDetails`. -/
def initialDetailsState : Hooks.DetailsState :=
  { movie := none, similar := [], loading := true, error := none }

/-- A concrete secondary-store row flagged as a new release. -/
def sampleDbMovie : Db.Movie :=
  { id := "42e57a", title := "Fresh", description := some "new",
    poster_url := none, backdrop_url := none, release_year := some 2024,
    rating := some 7, duration := some 100, is_trending := false,
    is_popular := false, is_new_release := true, created_at := "" }

/-- A store whose trending, popular and top-rated lists are empty while
the new-releases list has one row. -/
def newReleaseOnlyWorld : SupabaseApi.HomeWorld :=
  { configured := true
    trendingQ := .result (some []) none
    popularQ := .result (some []) none
    newReleasesQ := .result (some [sampleDbMovie]) none
    topRatedQ := .result (some []) none }

/-! ## Lemmas: decimal digits and printing -/

theorem digitChar_spec (d : Nat) (h : d < 10) :
    isDigitB (digitChar d) = true ∧ digitVal (digitChar d) = d ∧
      jsWs (digitChar d) = false ∧ (digitChar d = '0' ↔ d = 0) := by
  interval_cases d <;> refine ⟨by decide, by decide, by decide, by decide⟩

theorem charToNatInj (a b : Char) (h : a.toNat = b.toNat) : a = b :=
  Char.eq_of_val_eq (UInt32.ext h)

theorem beqCharToNat (c x : Char) : (c == x) = (c.toNat == x.toNat) := by
  by_cases h : c = x
  · subst h; simp
  · have hn : c.toNat ≠ x.toNat := fun hh => h (charToNatInj _ _ hh)
    simp [h, hn]

theorem char_ne_of_toNat_ne (c x : Char) (h : c.toNat ≠ x.toNat) : c ≠ x :=
  fun hc => h (by rw [hc])

theorem isDigitB_char_ne (c : Char) (h : isDigitB c = true) :
    c ≠ '-' ∧ c ≠ '+' ∧ c ≠ 'I' ∧ c ≠ 'd' ∧ jsWs c = false := by
  simp only [isDigitB, Bool.and_eq_true, decide_eq_true_eq] at h
  obtain ⟨h1, h2⟩ := h
  refine ⟨char_ne_of_toNat_ne _ _ ?_, char_ne_of_toNat_ne _ _ ?_,
    char_ne_of_toNat_ne _ _ ?_, char_ne_of_toNat_ne _ _ ?_, ?_⟩
  · simpa using by omega
  · simpa using by omega
  · simpa using by omega
  · simpa using by omega
  · simp only [jsWs, beqCharToNat, Bool.or_eq_false_iff, beq_eq_false_iff_ne, ne_eq,
      show (' ').toNat = 32 from rfl, show ('\t').toNat = 9 from rfl,
      show ('\n').toNat = 10 from rfl, show ('\x0d').toNat = 13 from rfl]
    omega
theorem natDigitsF_spec (fuel : Nat) :
    ∀ n, n < fuel →
      natDigitsF fuel n ≠ [] ∧ (∀ d ∈ natDigitsF fuel n, d < 10) ∧
        ofDigits (natDigitsF fuel n) = n ∧
        (1 ≤ n → (natDigitsF fuel n).headD 0 ≠ 0) := by
  induction fuel with
  | zero => intro n hn; omega
  | succ fuel ih =>
    intro n hn
    by_cases h10 : n < 10
    · simp only [natDigitsF, if_pos h10]
      refine ⟨by simp, by simp [h10], by simp [ofDigits], ?_⟩
      intro h1
      simpa using by omega
    · have hrec := ih (n / 10) (by omega)
      obtain ⟨hne, hlt, hval, hhead⟩ := hrec
      simp only [natDigitsF, if_neg h10]
      refine ⟨by simp, ?_, ?_, ?_⟩
      · intro d hd
        rcases List.mem_append.mp hd with hd | hd
        · exact hlt d hd
        · simp only [List.mem_singleton] at hd
          omega
      · simp only [ofDigits, List.foldl_append, List.foldl_cons, List.foldl_nil]
        have : (natDigitsF fuel (n / 10)).foldl (fun a d => 10 * a + d) 0 = n / 10 := hval
        rw [this]
        omega
      · intro _
        rcases hd : natDigitsF fuel (n / 10) with _ | ⟨d, ds⟩
        · exact absurd hd hne
        · simp only [hd, List.cons_append, List.headD_cons]
          have := hhead (by omega)
          rwa [hd] at this

theorem takeWhile_all (p : Char → Bool) :
    ∀ cs : List Char, (∀ c ∈ cs, p c = true) →
      cs.takeWhile p = cs ∧ cs.dropWhile p = []
  | [], _ => ⟨rfl, rfl⟩
  | c :: t, h => by
    have hc : p c = true := h c (by simp)
    have ht := takeWhile_all p t (fun x hx => h x (by simp [hx]))
    simp [List.takeWhile_cons, List.dropWhile_cons, hc, ht.1, ht.2]

theorem dropWhile_all_false (p : Char → Bool) :
    ∀ cs : List Char, (∀ c ∈ cs, p c = false) → cs.dropWhile p = cs
  | [], _ => rfl
  | c :: t, h => by simp [List.dropWhile_cons, h c (by simp)]

theorem jsTrimChars_noWs (cs : List Char) (h : ∀ c ∈ cs, jsWs c = false) :
    jsTrimChars cs = cs := by
  unfold jsTrimChars
  rw [dropWhile_all_false _ _ h,
    dropWhile_all_false _ _ (fun c hc => h c (List.mem_reverse.mp hc)),
    List.reverse_reverse]

theorem parseDec_digits (cs : List Char) (hne : cs ≠ [])
    (hd : ∀ c ∈ cs, isDigitB c = true) :
    parseDec cs = some (ofDigits (cs.map digitVal), 0) := by
  obtain ⟨htake, hdrop⟩ := takeWhile_all isDigitB cs hd
  have hemp : cs.isEmpty = false := by
    cases cs with
    | nil => exact absurd rfl hne
    | cons c t => rfl
  simp only [parseDec, htake, hdrop, hemp, parseExp, if_false, Bool.false_eq_true]
  rfl

theorem jsRadix_digits (cs : List Char) (hd : ∀ c ∈ cs, isDigitB c = true) :
    jsRadix cs = none := by
  match cs with
  | [] => rfl
  | [c] => rfl
  | c0 :: c1 :: rest =>
    have h1 : isDigitB c1 = true := hd c1 (by simp)
    simp only [isDigitB, Bool.and_eq_true, decide_eq_true_eq] at h1
    have hx : ¬(c1 = 'x' ∨ c1 = 'X') := by
      rintro (hc | hc) <;> · subst hc; exact absurd h1 (by decide)
    have hb : ¬(c1 = 'b' ∨ c1 = 'B') := by
      rintro (hc | hc) <;> · subst hc; exact absurd h1 (by decide)
    have ho : ¬(c1 = 'o' ∨ c1 = 'O') := by
      rintro (hc | hc) <;> · subst hc; exact absurd h1 (by decide)
    simp only [jsRadix]
    by_cases h0 : c0 = '0'
    · rw [if_pos h0, if_neg hx, if_neg hb, if_neg ho]
    · rw [if_neg h0]

theorem qOfParts_zero_exp (sgn : Int) (m : Nat) :
    qOfParts sgn m 0 = ((sgn * m : Int) : ℚ) := by
  simp [qOfParts, Rat.mkRat_one]

theorem finiteGuard_small (q : ℚ) (h : |q| < ((2 ^ 1024 : ℕ) : ℚ)) :
    finiteGuard q = some q := by
  rw [abs_lt] at h
  simp only [finiteGuard, jsFloatLimit]
  rw [if_pos ⟨h.1, h.2⟩]

theorem jsNumberOfChars_digits (cs : List Char) (hne : cs ≠ [])
    (hd : ∀ c ∈ cs, isDigitB c = true)
    (hlim : ofDigits (cs.map digitVal) < 10 ^ 21) :
    jsNumberOfChars cs = some ((ofDigits (cs.map digitVal) : ℕ) : ℚ) := by
  obtain ⟨c, t, rfl⟩ : ∃ c t, cs = c :: t := by
    cases cs with
    | nil => exact absurd rfl hne
    | cons c t => exact ⟨c, t, rfl⟩
  obtain ⟨hm, hp, hI, -, -⟩ := isDigitB_char_ne c (hd c (by simp))
  have hradix := jsRadix_digits (c :: t) hd
  have hInf : ¬(c :: t = "Infinity".data) := by
    intro hE
    have : c = 'I' := by
      have := congrArg (fun l => l.headD ' ') hE
      simpa using this
    exact hI this
  have hdec := parseDec_digits (c :: t) (by simp) hd
  simp only [jsNumberOfChars, hradix, if_neg hp, if_neg hm, if_neg hInf, hdec,
    Option.some_bind, qOfParts_zero_exp]
  have habs : |((1 * (ofDigits ((c :: t).map digitVal) : Int) : Int) : ℚ)| <
      ((2 ^ 1024 : ℕ) : ℚ) := by
    rw [one_mul]
    rw [abs_of_nonneg (by positivity)]
    have hq : ((ofDigits ((c :: t).map digitVal) : Nat) : ℚ) <
        ((2 ^ 1024 : ℕ) : ℚ) := by
      exact_mod_cast Nat.lt_of_lt_of_le hlim (by norm_num)
    exact_mod_cast hq
  rw [finiteGuard_small _ habs]
  norm_num

theorem natDigits_facts (n : Nat) :
    natDigits n ≠ [] ∧ (∀ d ∈ natDigits n, d < 10) ∧ ofDigits (natDigits n) = n :=
  have h := natDigitsF_spec (n + 1) n (by omega)
  ⟨h.1, h.2.1, h.2.2.1⟩

theorem natRepr_digit_chars (n : Nat) :
    ∀ c ∈ (natDigits n).map digitChar, isDigitB c = true := by
  intro c hc
  obtain ⟨d, hd, rfl⟩ := List.mem_map.mp hc
  exact (digitChar_spec d ((natDigits_facts n).2.1 d hd)).1

theorem ofDigits_map_digitVal_digitChar (ds : List Nat) (h : ∀ d ∈ ds, d < 10) :
    ofDigits (((ds.map digitChar)).map digitVal) = ofDigits ds := by
  rw [List.map_map]
  congr 1
  have : ∀ d ∈ ds, (digitVal ∘ digitChar) d = id d := by
    intro d hd
    exact (digitChar_spec d (h d hd)).2.1
  rw [List.map_congr_left this, List.map_id]

theorem jsNumber_natRepr (n : Nat) (h : n < 10 ^ 21) :
    jsNumber (natRepr n) = some ((n : ℕ) : ℚ) := by
  obtain ⟨hne, hlt, hval⟩ := natDigits_facts n
  have hchars := natRepr_digit_chars n
  have hmap : ofDigits (((natDigits n).map digitChar).map digitVal) = n := by
    rw [ofDigits_map_digitVal_digitChar _ hlt, hval]
  have hne2 : (natDigits n).map digitChar ≠ [] := by
    simpa using hne
  have htrim : jsTrimChars ((natDigits n).map digitChar) = (natDigits n).map digitChar :=
    jsTrimChars_noWs _ (fun c hc => ((isDigitB_char_ne c (hchars c hc)).2.2.2.2))
  show jsNumberOfChars (jsTrimChars (String.mk ((natDigits n).map digitChar)).data) = _
  rw [show (String.mk ((natDigits n).map digitChar)).data = (natDigits n).map digitChar from rfl,
    htrim, jsNumberOfChars_digits _ hne2 hchars (by rw [hmap]; exact h), hmap]

theorem jsNumber_intRepr (i : Int) (h : i.natAbs < 10 ^ 21) :
    jsNumber (intRepr i) = some ((i : Int) : ℚ) := by
  by_cases hneg : i < 0
  · obtain ⟨hne, hlt, hval⟩ := natDigits_facts i.natAbs
    have hchars := natRepr_digit_chars i.natAbs
    have hmap : ofDigits (((natDigits i.natAbs).map digitChar).map digitVal) = i.natAbs := by
      rw [ofDigits_map_digitVal_digitChar _ hlt, hval]
    obtain ⟨c, t, hct⟩ : ∃ c t, (natDigits i.natAbs).map digitChar = c :: t := by
      cases hds : (natDigits i.natAbs).map digitChar with
      | nil => exact absurd (List.map_eq_nil_iff.mp hds) hne
      | cons c t => exact ⟨c, t, rfl⟩
    have hcd : isDigitB c = true := hchars c (by rw [hct]; simp)
    obtain ⟨hcm, hcp, hcI, -, hcw⟩ := isDigitB_char_ne c hcd
    have hIntRepr : intRepr i = String.mk ('-' :: (natDigits i.natAbs).map digitChar) := by
      rw [intRepr, if_pos hneg]
    rw [hIntRepr]
    show jsNumberOfChars (jsTrimChars ('-' :: (natDigits i.natAbs).map digitChar)) = _
    have htrim : jsTrimChars ('-' :: (natDigits i.natAbs).map digitChar) =
        '-' :: (natDigits i.natAbs).map digitChar := by
      refine jsTrimChars_noWs _ ?_
      intro x hx
      rcases List.mem_cons.mp hx with hx | hx
      · subst hx; decide
      · exact (isDigitB_char_ne x (hchars x hx)).2.2.2.2
    rw [htrim, hct]
    have hradix : jsRadix ('-' :: c :: t) = none := rfl
    have hInf : ¬(c :: t = "Infinity".data) := by
      intro hE
      exact hcI (by have := congrArg (fun l => l.headD ' ') hE; simpa using this)
    have hdec : parseDec (c :: t) = some (ofDigits ((c :: t).map digitVal), 0) := by
      refine parseDec_digits _ (by simp) ?_
      intro x hx
      exact hchars x (by rw [hct]; exact hx)
    simp only [jsNumberOfChars, hradix, if_neg (show ¬('-' = '+') by decide),
      eq_self_iff_true, if_true, if_neg hInf, hdec, Option.some_bind, qOfParts_zero_exp]
    have hofd : (ofDigits ((c :: t).map digitVal)) = i.natAbs := by
      rw [← hct]
      exact hmap
    rw [hofd]
    have hival : ((-1 * (i.natAbs : Int) : Int) : ℚ) = ((i : Int) : ℚ) := by
      have hi : (-1 * (i.natAbs : Int) : Int) = i := by omega
      rw [hi]
    rw [hival]
    refine finiteGuard_small _ ?_
    have hc : ((i.natAbs : ℕ) : ℚ) = |((i : ℤ) : ℚ)| := by
      push_cast [Int.cast_natAbs]
      rfl
    rw [← hc]
    exact_mod_cast Nat.lt_of_lt_of_le h (by norm_num)
  · have h0 : (0:Int) ≤ i := not_lt.mp hneg
    have ht : i.toNat < 10 ^ 21 := by omega
    rw [intRepr, if_neg hneg, jsNumber_natRepr i.toNat ht]
    congr 1
    exact_mod_cast Int.toNat_of_nonneg h0

theorem jsNumToString_intCast (y : Int) : jsNumToString ((y : Int) : ℚ) = intRepr y := by
  simp [jsNumToString, Rat.den_intCast, Rat.num_intCast]

theorem intRepr_pos_chars (y : Int) (hy : 0 < y) :
    (intRepr y).data = (natDigits y.toNat).map digitChar ∧
      (natDigits y.toNat).map digitChar ≠ [] ∧
      (∀ c ∈ (natDigits y.toNat).map digitChar, isDigitB c = true) := by
  have h1 : (intRepr y).data = (natDigits y.toNat).map digitChar := by
    rw [intRepr, if_neg (by omega)]
    rfl
  refine ⟨h1, ?_, natRepr_digit_chars y.toNat⟩
  simpa using (natDigits_facts y.toNat).1

theorem takeWhile_until_dash (xs ys : List Char) (hx : ∀ c ∈ xs, c ≠ '-') :
    (xs ++ '-' :: ys).takeWhile (fun c => c ≠ '-') = xs := by
  induction xs with
  | nil => simp [List.takeWhile_cons]
  | cons x rest ih =>
    have hxne : x ≠ '-' := hx x (by simp)
    simp only [List.cons_append, List.takeWhile_cons, decide_eq_true_eq]
    rw [if_pos hxne, ih (fun c hc => hx c (by simp [hc]))]

theorem startsWithChars_db (s : List Char) :
    startsWithChars "db_".data ('d' :: 'b' :: '_' :: s) = true := rfl

theorem replaceFirstChars_db (s : List Char) :
    replaceFirstChars "db_".data ('d' :: 'b' :: '_' :: s) = s := rfl

theorem startsWithChars_db_false (c : Char) (t : List Char) (h : c ≠ 'd') :
    startsWithChars "db_".data (c :: t) = false := by
  show (('d' == c) && startsWithChars ['b', '_'] t) = false
  have : ('d' == c) = false := beq_eq_false_iff_ne.mpr (Ne.symm h)
  rw [this, Bool.false_and]

theorem fireIfDue_not_due (t : Nat) (st : Hooks.SearchState)
    (hp : ∀ dl tq, st.pendingTimer = some (dl, tq) → t < dl) :
    Hooks.fireIfDue t st = (st, []) := by
  cases hpt : st.pendingTimer with
  | none => simp [Hooks.fireIfDue, hpt]
  | some p =>
    obtain ⟨dl, tq⟩ := p
    have := hp dl tq hpt
    simp [Hooks.fireIfDue, hpt, if_neg (by omega : ¬dl ≤ t)]

theorem runSearch_cons (d : Nat) (st : Hooks.SearchState) (t : Nat) (q : String)
    (rest : List (Nat × String)) :
    Hooks.runSearch d st ((t, q) :: rest) =
      ((Hooks.runSearch d (Hooks.searchCall d t (Hooks.fireIfDue t st).1 q) rest).1,
        (Hooks.fireIfDue t st).2 ++
          (Hooks.runSearch d (Hooks.searchCall d t (Hooks.fireIfDue t st).1 q) rest).2) :=
  rfl

theorem runSearch_aux (d : Nat) :
    ∀ (events : List (Nat × String)) (st : Hooks.SearchState),
      events ≠ [] → Hooks.gapsOk d events = true →
      (∀ dl tq, st.pendingTimer = some (dl, tq) → (events.headD (0, "")).1 < dl) →
      (Hooks.runSearch d st events).2 =
        (if jsBlank (Hooks.lastQ events) then [] else [Hooks.lastQ events]) := by
  intro events
  induction events with
  | nil => intro st hne; exact absurd rfl hne
  | cons e rest ih =>
    intro st _ hgaps hp
    obtain ⟨t1, q1⟩ := e
    have hfired : Hooks.fireIfDue t1 st = (st, []) := by
      refine fireIfDue_not_due t1 st ?_
      intro dl tq hpt
      simpa using hp dl tq hpt
    cases rest with
    | nil =>
      rw [runSearch_cons, hfired]
      by_cases hb : jsBlank q1 = true
      · simp [Hooks.runSearch, Hooks.searchCall, Hooks.lastQ, hb]
      · have hb2 : jsBlank q1 = false := by
          cases hbe : jsBlank q1 with
          | true => exact absurd hbe hb
          | false => rfl
        simp [Hooks.runSearch, Hooks.searchCall, Hooks.lastQ, hb2]
    | cons e2 rest2 =>
      obtain ⟨t2, q2⟩ := e2
      have hgaps2 : Hooks.gapsOk d ((t2, q2) :: rest2) = true := by
        simp only [Hooks.gapsOk, Bool.and_eq_true] at hgaps
        exact hgaps.2
      have hlt : t2 < t1 + d := by
        simp only [Hooks.gapsOk, Bool.and_eq_true, decide_eq_true_eq] at hgaps
        exact hgaps.1.2
      have hstep := ih (Hooks.searchCall d t1 st q1) (by simp) hgaps2 ?_
      · rw [runSearch_cons, hfired]
        simp only [List.nil_append]
        rw [hstep]
        rfl
      · intro dl tq hpt
        simp only [Hooks.searchCall] at hpt
        by_cases hb : jsBlank q1 = true
        · rw [if_pos hb] at hpt
          simp at hpt
        · have hb2 : jsBlank q1 = false := by
            cases hbe : jsBlank q1 with
            | true => exact absurd hbe hb
            | false => rfl
          rw [if_neg (by simp [hb2])] at hpt
          simp only [Option.some_inj, Prod.mk.injEq] at hpt
          simp only [List.headD_cons]
          omega

/-! ## Claim theorems -/

/-- C1 (counterexample): it is not true that a failed primary request
forces every list of the home aggregate onto the secondary/static-
fallback path — with the trending request failing and the popular
request succeeding, the aggregate keeps the primary popular payload
next to the static trending fallback. -/
theorem c1_counterexample : ¬c1Claim := fun h =>
  absurd
    (h mixedFailureWorld (Except.error "Network Error") initialHomeState
      (Or.inl rfl) [sampleTmdbMovie] (by decide))
    (by decide)

/-- C1 (amended): each of the four home-aggregate lists independently
equals its primary payload when that request succeeds and that call's
static fallback when it fails; the hero movie is the head of the
resulting trending list; the aggregate is committed with no error and
loading resolved — the orchestrator's wholesale switch to the secondary
store is never triggered, because the primary client catches its own
failures and never rejects. -/
theorem c1_per_list_fallback (w : Hooks.TmdbWorld)
    (secondary : Except String Db.HomeScreenData) (prev : Hooks.HomeState) :
    (Hooks.fetchHomeDataComposed w secondary prev).data.trending =
        (Tmdb.apiSafeFetch w.trendingNet w.trendingFB "Trending").results ∧
    (Hooks.fetchHomeDataComposed w secondary prev).data.popular =
        (Tmdb.apiSafeFetch w.popularNet w.popularFB "Popular").results ∧
    (Hooks.fetchHomeDataComposed w secondary prev).data.topRated =
        (Tmdb.apiSafeFetch w.topRatedNet w.topRatedFB "Top Rated").results ∧
    (Hooks.fetchHomeDataComposed w secondary prev).data.upcoming =
        (Tmdb.apiSafeFetch w.upcomingNet w.upcomingFB "Upcoming").results ∧
    (Hooks.fetchHomeDataComposed w secondary prev).data.heroMovie =
        (Tmdb.apiSafeFetch w.trendingNet w.trendingFB "Trending").results.head? ∧
    (Hooks.fetchHomeDataComposed w secondary prev).error = none ∧
    (Hooks.fetchHomeDataComposed w secondary prev).loading = false :=
  ⟨rfl, rfl, rfl, rfl, rfl, rfl, rfl⟩

/-- C2: `safeQuery` never raises — it resolves to the query's data when
the query succeeds with non-null data and to the caller's fallback in
every other case, and a missing configuration short-circuits to the
fallback without invoking the query function. -/
theorem c2_safeQuery_spec {α : Type} (configured : Bool)
    (outcome : SupabaseApi.QueryOutcome α) (fallback : α) (label : String) :
    (∀ d, configured = true → outcome = .result (some d) none →
      SupabaseApi.safeQueryRun configured outcome fallback label = (d, true)) ∧
    (SupabaseApi.safeQuery configured outcome fallback label = fallback ∨
      ∃ d, outcome = .result (some d) none ∧
        SupabaseApi.safeQuery configured outcome fallback label = d) ∧
    (configured = false →
      SupabaseApi.safeQueryRun configured outcome fallback label = (fallback, false)) := by
  refine ⟨?_, ?_, ?_⟩
  · rintro d rfl rfl
    rfl
  · cases configured with
    | false => exact Or.inl rfl
    | true =>
      cases outcome with
      | throws msg => exact Or.inl rfl
      | result d e =>
        cases e with
        | some err => exact Or.inl rfl
        | none =>
          cases d with
          | none => exact Or.inl rfl
          | some v => exact Or.inr ⟨v, rfl, rfl⟩
  · rintro rfl
    rfl

/-- C2 (witness): `safeQuery` at concrete outcomes — success with data
resolves to the data; missing configuration resolves to the fallback
without invoking the query. -/
theorem c2_witness :
    SupabaseApi.safeQueryRun true
        (SupabaseApi.QueryOutcome.result (some 3) none) (0 : Nat) "W" = (3, true) ∧
    SupabaseApi.safeQueryRun false
        (SupabaseApi.QueryOutcome.throws "boom") (7 : Nat) "W" = (7, false) :=
  ⟨(c2_safeQuery_spec true (SupabaseApi.QueryOutcome.result (some 3) none) 0 "W").1
      3 rfl rfl,
    (c2_safeQuery_spec false (SupabaseApi.QueryOutcome.throws "boom") 7 "W").2.2 rfl⟩

/-- C9: when the primary batch rejects and the secondary aggregate also
rejects, `useHomeData.fetchHomeData` sets the error string, resolves
loading, and leaves the previously held data untouched. -/
theorem c9_both_fail (e1 e2 : String) (prev : Hooks.HomeState) :
    (Hooks.fetchHomeData (Except.error e1) (Except.error e2) prev).data = prev.data ∧
    (Hooks.fetchHomeData (Except.error e1) (Except.error e2) prev).error =
        some "Failed to load home data" ∧
    (Hooks.fetchHomeData (Except.error e1) (Except.error e2) prev).loading = false :=
  ⟨rfl, rfl, rfl⟩

/-- C3 (counterexample): the round trip fails on a record whose release
year is 0 — JavaScript truthiness maps year 0 to an empty
`release_date`, so the read-back year is gone. -/
theorem c3_counterexample : ¬c3Claim := fun h =>
  absurd (h yearZeroMovie 5 0 rfl rfl).2.2 (by decide)

/-- C3 (amended): for a record carrying a rating and a positive release
year (below `10 ^ 21`, the decimal-notation range of JavaScript number
printing), mapping to the primary shape reproduces title, rating and
release year on read-back; missing optional fields take the predictable
defaults: empty overview for a null description, pass-through null
image urls, zero budget, and `runtime` equal to the (possibly null)
duration. -/
theorem c3_roundtrip (m : Db.Movie) (r : ℚ) (y : Int) (hr : m.rating = some r)
    (hy : m.release_year = some y) (hpos : 0 < y) (hlim : y < 10 ^ 21) :
    (mapSupabaseMovieToTmdb m).title = m.title ∧
    (mapSupabaseMovieToTmdb m).vote_average = r ∧
    readReleaseYear (mapSupabaseMovieToTmdb m) = some ((y : Int) : ℚ) ∧
    (m.description = none → (mapSupabaseMovieToTmdb m).overview = "") ∧
    (mapSupabaseMovieToTmdb m).poster_path = m.poster_url ∧
    (mapSupabaseMovieToTmdb m).backdrop_path = m.backdrop_url ∧
    (∀ cats, (mapSupabaseMovieToTmdbDetails m cats).budget = 0 ∧
      (mapSupabaseMovieToTmdbDetails m cats).runtime = m.duration) := by
  obtain ⟨hchars_eq, hne, hdig⟩ := intRepr_pos_chars y hpos
  have hy0 : y ≠ 0 := by omega
  have hdate : (mapSupabaseMovieToTmdb m).release_date =
      jsNumToString ((y : Int) : ℚ) ++ "-01-01" := by
    simp [mapSupabaseMovieToTmdb, hy, hy0]
  refine ⟨rfl, by simp [mapSupabaseMovieToTmdb, hr], ?_, ?_, rfl, rfl, fun cats => ⟨rfl, rfl⟩⟩
  · rw [readReleaseYear, hdate, jsNumToString_intCast]
    have hdata : (intRepr y ++ "-01-01").data =
        (natDigits y.toNat).map digitChar ++ '-' :: "01-01".data := by
      show (intRepr y).data ++ "-01-01".data = _
      rw [hchars_eq]
    have hnonempty : (intRepr y ++ "-01-01").isEmpty = false := by
      cases he : (intRepr y ++ "-01-01").isEmpty with
      | false => rfl
      | true =>
        have := (String.isEmpty_iff _).mp he
        have hd := congrArg String.data this
        rw [hdata] at hd
        simp at hd
    rw [hnonempty]
    simp only [Bool.false_eq_true, if_false, hdata]
    rw [takeWhile_until_dash _ _
      (fun c hc => (isDigitB_char_ne c (hdig c hc)).1)]
    have : String.mk ((natDigits y.toNat).map digitChar) = natRepr y.toNat := rfl
    rw [this, jsNumber_natRepr y.toNat (by omega)]
    congr 1
    exact_mod_cast Int.toNat_of_nonneg (le_of_lt hpos)
  · intro hd
    simp [mapSupabaseMovieToTmdb, hd]

/-- C3 (witness): the amended round trip at a concrete record with
rating 7 and release year 2024. -/
theorem c3_witness :
    (mapSupabaseMovieToTmdb sampleDbMovie).title = "Fresh" ∧
    (mapSupabaseMovieToTmdb sampleDbMovie).vote_average = 7 ∧
    readReleaseYear (mapSupabaseMovieToTmdb sampleDbMovie) = some ((2024 : Int) : ℚ) := by
  have h := c3_roundtrip sampleDbMovie 7 2024 rfl rfl (by decide) (by decide)
  exact ⟨h.1, h.2.1, h.2.2.1⟩

/-- C4: `toNumericId` is deterministic (equal inputs give equal ids),
returns the coerced value as-is whenever the string coerces to a finite
number, returns the absolute value of the 32-bit character hash
otherwise, and performs no collision resolution — two distinct strings
("Aa" and "BB") share one id. -/
theorem c4_toNumericId_rule :
    (∀ s t : String, s = t → toNumericId s = toNumericId t) ∧
    (∀ s q, jsNumber s = some q → toNumericId s = q) ∧
    (∀ s, jsNumber s = none → toNumericId s = ((jsStringHash s).natAbs : ℚ)) ∧
    (("Aa" : String) ≠ "BB" ∧ toNumericId "Aa" = toNumericId "BB") := by
  refine ⟨fun s t h => by rw [h], fun s q h => by simp [toNumericId, h],
    fun s h => by simp [toNumericId, h], by decide, ?_⟩
  decide

/-- C4 (witness): a numeric string is used as-is, a non-numeric string
hashes. -/
theorem c4_witness :
    toNumericId "42" = 42 ∧
    toNumericId "Aa" = ((jsStringHash "Aa").natAbs : ℚ) :=
  ⟨c4_toNumericId_rule.2.1 "42" 42 (by decide),
    c4_toNumericId_rule.2.2.1 "Aa" (by decide)⟩

/-- C5: a blank (empty or whitespace-only) search input clears data and
suggestions, schedules no debounce timer and emits no fetch, and both
clients' search entry points resolve to an empty result without running
a network query for a blank query string. -/
theorem c5_blank_search (d now : Nat) (st : Hooks.SearchState) (q : String)
    (hq : jsBlank q = true) (hp : st.pendingTimer = none) :
    (Hooks.runSearch d st [(now, q)]).2 = [] ∧
    (Hooks.runSearch d st [(now, q)]).1.data = [] ∧
    (Hooks.runSearch d st [(now, q)]).1.suggestions = [] ∧
    (Hooks.runSearch d st [(now, q)]).1.pendingTimer = none ∧
    (∀ net fb, Tmdb.searchMovies q net fb = (Tmdb.emptySearchPage, false)) ∧
    (∀ cfg outcome, SupabaseApi.searchMovies q cfg outcome = ([], false)) := by
  have h1 : Hooks.fireIfDue now st = (st, []) := by
    simp [Hooks.fireIfDue, hp]
  have h2 : Hooks.searchCall d now st q =
      { st with pendingTimer := none, query := q, data := [], suggestions := [] } := by
    simp [Hooks.searchCall, hq]
  have h3 : Hooks.runSearch d st [(now, q)] =
      ({ st with pendingTimer := none, query := q, data := [], suggestions := [] },
        []) := by
    rw [runSearch_cons, h1]
    simp only [Hooks.runSearch, h2, List.nil_append]
  rw [h3]
  refine ⟨rfl, rfl, rfl, rfl, fun net fb => ?_, fun cfg outcome => ?_⟩
  · simp [Tmdb.searchMovies, hq]
  · simp [SupabaseApi.searchMovies, hq]

/-- C5 (witness): a whitespace-only query in a fresh session. -/
theorem c5_witness :
    (Hooks.runSearch 300 Hooks.initialSearchState [(0, "   ")]).2 = [] ∧
    (Hooks.runSearch 300 Hooks.initialSearchState [(0, "   ")]).1.data = [] ∧
    (Hooks.runSearch 300 Hooks.initialSearchState [(0, "   ")]).1.suggestions = [] := by
  have h := c5_blank_search 300 0 Hooks.initialSearchState "   " (by decide) rfl
  exact ⟨h.1, h.2.1, h.2.2.1⟩

/-- C6: any run of search inputs in which consecutive keystrokes arrive
strictly within the debounce window, started from a session with no
pending timer and ending with a non-blank text, triggers exactly one
network fetch, and it carries the final text of the sequence — each new
text cancels the pending timer and reschedules. -/
theorem c6_debounce (d : Nat) (st : Hooks.SearchState)
    (events : List (Nat × String)) (hp : st.pendingTimer = none)
    (hne : events ≠ []) (hg : Hooks.gapsOk d events = true)
    (hb : jsBlank (Hooks.lastQ events) = false) :
    (Hooks.runSearch d st events).2 = [Hooks.lastQ events] := by
  have h := runSearch_aux d events st hne hg
    (fun dl tq hpt => by rw [hp] at hpt; cases hpt)
  rw [h, if_neg (by simp [hb])]

/-- C6 (witness): keystrokes "I", "In", "Inc" 50 ms apart with a 300 ms
window produce exactly one fetch, for "Inc". -/
theorem c6_witness :
    (Hooks.runSearch 300 Hooks.initialSearchState
      [(0, "I"), (50, "In"), (100, "Inc")]).2 = ["Inc"] := by
  have h := c6_debounce 300 Hooks.initialSearchState
    [(0, "I"), (50, "In"), (100, "Inc")] rfl (by decide) (by decide) (by decide)
  exact h

/-- C7 (counterexample): a transport failure in the secondary client is
swallowed by `safeQuery` into the null fallback, so the details hook
reports the very same "Movie not found" error — the not-found error is
not distinct from the transport-failure outcome. -/
theorem c7_counterexample : ¬c7TransportDistinct := fun h =>
  absurd rfl
    (h transportFailWorld "movie-1" initialDetailsState "Network request failed"
      rfl rfl)

/-- C7 (amended): whenever `getMovieById` resolves to null — be it a
missing row, a store error object, a thrown transport exception, or a
missing configuration — the details hook settles with the error
"Movie not found", loading false and no movie; the hook's own
transport-failure message ("Failed to load movie details") is
unreachable because the client never rejects. -/
theorem c7_not_found (w : Hooks.DetailsWorld) (mid : String)
    (prev : Hooks.DetailsState)
    (h : SupabaseApi.getMovieById w.configured w.movieByIdQ mid = none) :
    (Hooks.fetchDetails (some mid) w prev).error = some "Movie not found" ∧
    (Hooks.fetchDetails (some mid) w prev).loading = false ∧
    (Hooks.fetchDetails (some mid) w prev).movie = none := by
  simp [Hooks.fetchDetails, h]

/-- C7 (witness): a no-rows outcome for a nonexistent id settles in the
not-found error state with loading resolved. -/
theorem c7_witness :
    (Hooks.fetchDetails (some "nonexistent-id") notFoundWorld
        initialDetailsState).error = some "Movie not found" ∧
    (Hooks.fetchDetails (some "nonexistent-id") notFoundWorld
        initialDetailsState).loading = false ∧
    (Hooks.fetchDetails (some "nonexistent-id") notFoundWorld
        initialDetailsState).movie = none :=
  c7_not_found notFoundWorld "nonexistent-id" initialDetailsState rfl

/-- C8 (counterexample): with trending and popular both empty and one
new release in the store, the mapped aggregate's hero movie is the
first upcoming (new-release) item — not null as the trending/popular
rule of the claim would dictate. -/
theorem c8_counterexample : ¬c8Claim := fun h =>
  absurd (h newReleaseOnlyWorld) (by decide)

/-- C8 (amended): the secondary-built home aggregate carries the four
store lists mapped through the schema mapper (`newReleases` feeding
`upcoming`), and its hero movie is the first trending item, else the
first popular item, else the first upcoming (new-release) item, else
null. -/
theorem c8_home_aggregate (w : SupabaseApi.HomeWorld) :
    (Hooks.mapSupabaseHomeToTmdb (SupabaseApi.getHomeScreenData w)).trending =
        mapSupabaseMoviesToTmdb (SupabaseApi.getHomeScreenData w).trending ∧
    (Hooks.mapSupabaseHomeToTmdb (SupabaseApi.getHomeScreenData w)).popular =
        mapSupabaseMoviesToTmdb (SupabaseApi.getHomeScreenData w).popular ∧
    (Hooks.mapSupabaseHomeToTmdb (SupabaseApi.getHomeScreenData w)).topRated =
        mapSupabaseMoviesToTmdb (SupabaseApi.getHomeScreenData w).topRated ∧
    (Hooks.mapSupabaseHomeToTmdb (SupabaseApi.getHomeScreenData w)).upcoming =
        mapSupabaseMoviesToTmdb (SupabaseApi.getHomeScreenData w).newReleases ∧
    (Hooks.mapSupabaseHomeToTmdb (SupabaseApi.getHomeScreenData w)).heroMovie =
      (if (SupabaseApi.getHomeScreenData w).trending.isEmpty = false then
        (mapSupabaseMoviesToTmdb (SupabaseApi.getHomeScreenData w).trending).head?
      else if (SupabaseApi.getHomeScreenData w).popular.isEmpty = false then
        (mapSupabaseMoviesToTmdb (SupabaseApi.getHomeScreenData w).popular).head?
      else
        (mapSupabaseMoviesToTmdb
          (SupabaseApi.getHomeScreenData w).newReleases).head?) := by
  refine ⟨rfl, rfl, rfl, rfl, ?_⟩
  generalize SupabaseApi.getHomeScreenData w = sd
  cases htr : sd.trending with
  | cons a l =>
    simp [Hooks.mapSupabaseHomeToTmdb, mapSupabaseMoviesToTmdb, jsOr, htr]
  | nil =>
    cases hpop : sd.popular with
    | cons b l2 =>
      simp [Hooks.mapSupabaseHomeToTmdb, mapSupabaseMoviesToTmdb, jsOr, htr, hpop]
    | nil =>
      simp [Hooks.mapSupabaseHomeToTmdb, mapSupabaseMoviesToTmdb, jsOr, htr, hpop]

theorem screenParse_intRepr (n : Int) (h : n.natAbs < 10 ^ 21) :
    screenParse (intRepr n) = (none, some ((n : Int) : ℚ)) := by
  obtain ⟨c, t, hct, hcd⟩ : ∃ c t, (intRepr n).data = c :: t ∧ c ≠ 'd' := by
    by_cases hneg : n < 0
    · refine ⟨'-', (natDigits n.natAbs).map digitChar, ?_, by decide⟩
      rw [intRepr, if_pos hneg]
    · have hpos0 : ¬n < 0 := hneg
      have h1 : (intRepr n).data = (natDigits n.toNat).map digitChar := by
        rw [intRepr, if_neg hneg]
        rfl
      obtain ⟨c, t, hct2⟩ : ∃ c t, (natDigits n.toNat).map digitChar = c :: t := by
        cases hds : (natDigits n.toNat).map digitChar with
        | nil => exact absurd (List.map_eq_nil_iff.mp hds) (natDigits_facts n.toNat).1
        | cons c t => exact ⟨c, t, rfl⟩
      have hdig : isDigitB c = true :=
        natRepr_digit_chars n.toNat c (by rw [hct2]; simp)
      exact ⟨c, t, by rw [h1, hct2], (isDigitB_char_ne c hdig).2.2.2.1⟩
  have hsw : startsWithChars "db_".data (intRepr n).data = false := by
    rw [hct]
    exact startsWithChars_db_false c t hcd
  have hne : (intRepr n).isEmpty = false := by
    cases he : (intRepr n).isEmpty with
    | false => rfl
    | true =>
      have hs := (String.isEmpty_iff _).mp he
      have hd := congrArg String.data hs
      rw [hct] at hd
      simp at hd
  simp only [screenParse, hsw, Bool.false_eq_true, if_false, hne, Bool.not_false,
    if_true, jsNumber_intRepr n h]

/-- C10: route ids round-trip with the details screen's parsing — a
secondary-origin movie with a non-empty store id routes as `db_` plus
that id, from which the screen recovers exactly the original id with
the prefix stripped (and no numeric id); any other movie routes as the
decimal string of its numeric id, which the screen's `Number(...)`
coercion converts back to that number (stated for integer ids in the
decimal-notation printing range, the ids the primary source issues). -/
theorem c10_route_roundtrip (m : Tmdb.Movie) :
    (∀ s, m.source = some "supabase" → m.sourceId = some s → s ≠ "" →
      screenParse (getMovieRouteId m) = (some s, none)) ∧
    (¬(m.source = some "supabase" ∧ jsTruthyStr m.sourceId = true) →
      m.id.den = 1 → m.id.num.natAbs < 10 ^ 21 →
      screenParse (getMovieRouteId m) = (none, some m.id)) := by
  constructor
  · intro s hsrc hsid hne
    have hsemp : s.isEmpty = false := by
      cases he : s.isEmpty with
      | false => rfl
      | true => exact absurd ((String.isEmpty_iff _).mp he) hne
    have htruthy : jsTruthyStr m.sourceId = true := by
      rw [hsid]
      simp [jsTruthyStr, hsemp]
    have hroute : getMovieRouteId m = "db_" ++ s := by
      rw [getMovieRouteId, if_pos ⟨hsrc, htruthy⟩, hsid]
      rfl
    rw [hroute]
    rfl
  · intro hnot hden hlim
    have hroute : getMovieRouteId m = jsNumToString m.id := by
      rw [getMovieRouteId, if_neg hnot]
    have hjs : jsNumToString m.id = intRepr m.id.num := by
      simp [jsNumToString, hden]
    rw [hroute, hjs, screenParse_intRepr m.id.num hlim,
      (Rat.den_eq_one_iff m.id).mp hden]

/-- C10 (witness): a mapped secondary movie routes as `db_42e57a` and
the screen recovers the store id `42e57a`; a primary movie with id 7
routes as `"7"` and the screen recovers the number 7. -/
theorem c10_witness :
    screenParse (getMovieRouteId (mapSupabaseMovieToTmdb sampleDbMovie)) =
        (some "42e57a", none) ∧
    screenParse (getMovieRouteId sampleTmdbMovie) = (none, some 7) :=
  ⟨(c10_route_roundtrip (mapSupabaseMovieToTmdb sampleDbMovie)).1 "42e57a" rfl rfl
      (by decide),
    (c10_route_roundtrip sampleTmdbMovie).2 (by decide) (by decide) (by decide)⟩
